import Mathlib

/-
Verification of the Snore_Detection repository real-time pipeline.

Shallow embedding conventions:
  * numpy float arrays are modelled as lists of rationals; a 2D array is a
    list of rows (List (List Rat));
  * machine floats that may become NaN or infinite are modelled by the type
    FloatVal, with one constructor for finite values and one collapsing
    NaN and the infinities (nonfinite);
  * np.std is the real square root of the population variance; it is
    modelled with ratSqrt, an executable rational square root that is
    exact at perfect squares — in particular ratSqrt 0 = 0 and the zero
    tests on the standard deviation, which are all the theorems below use,
    agree with the real semantics at variance zero;
  * librosa.feature.mfcc and librosa.feature.melspectrogram are external
    collaborators: the embedding takes their output matrices as arguments;
  * the Keras model is an external collaborator: the embedding takes its
    scalar score as an argument;
  * raising a Python exception is modelled with Except, and a try/except
    handler by matching on the Except value.
-/

set_option allowUnsafeReducibility true
attribute [semireducible] Rat.mul Rat.inv Rat.add Rat.sub

namespace SnoreDetection

/-- Floor of the square root of a natural number, by counting the k with
k * k ≤ n; written with structural recursion only so that concrete values
reduce inside the kernel. -/
def sqrtFloor (n : ℕ) : ℕ :=
  ((List.range (n + 1)).filter (fun k => k * k ≤ n)).length - 1

/-- Floor square root on integers: negative arguments map to 0. -/
def intSqrt (m : ℤ) : ℤ := (sqrtFloor m.toNat : ℤ)

/-- Executable rational square root surrogate (floor square roots of
numerator and denominator).  It is exact at perfect squares — in
particular ratSqrt 0 = 0, and it is positive exactly when its argument is
positive, which is all the standard-deviation reasoning below uses. -/
def ratSqrt (q : ℚ) : ℚ := mkRat (intSqrt q.num) (sqrtFloor q.den)

/-- A floating-point value: either a finite number or a non-finite value
(NaN or an infinity, collapsed into one constructor). -/
inductive FloatVal where
  | fin (q : ℚ) : FloatVal
  | nonfinite : FloatVal
deriving DecidableEq, Repr

/-- IEEE-style division as numpy performs it on float arrays: dividing by
zero yields a non-finite value (NaN for 0/0, an infinity otherwise) instead
of raising. -/
def fdiv (a b : ℚ) : FloatVal :=
  if b = 0 then FloatVal.nonfinite else FloatVal.fin (a / b)

/-- All entries of a 2D feature array, row-major (numpy reductions without
an axis argument run over all entries). -/
def entries (fs : List (List ℚ)) : List ℚ := fs.flatten

/-- np.mean over all entries of a 2D array. -/
def npMean (fs : List (List ℚ)) : ℚ :=
  (entries fs).sum / ((entries fs).length : ℚ)

/-- Population variance over all entries of a 2D array (the square of
np.std). -/
def npVar (fs : List (List ℚ)) : ℚ :=
  ((entries fs).map (fun x => (x - npMean fs) * (x - npMean fs))).sum /
    ((entries fs).length : ℚ)

/-- np.std over all entries: the square root of the population variance.
ratSqrt is the executable rational surrogate described in the header; it
is exact at variance zero, the only case the claims depend on. -/
def npStd (fs : List (List ℚ)) : ℚ := ratSqrt (npVar fs)

/-- utils.normalize_features: Z-score normalization with NO zero-variance
guard — `(features - np.mean(features)) / np.std(features)` is computed
unconditionally, so a zero standard deviation divides by zero. -/
def normalize_features (fs : List (List ℚ)) : List (List FloatVal) :=
  fs.map (fun row => row.map (fun x => fdiv (x - npMean fs) (npStd fs)))

/-- The normalization step inside RealtimeSnoreDetector.extract_features:
the division is guarded by `if std > 0`, otherwise the combined features
are returned unchanged. -/
def rtNormalize (fs : List (List ℚ)) : List (List ℚ) :=
  if 0 < npStd fs then
    fs.map (fun row => row.map (fun x => (x - npMean fs) / npStd fs))
  else fs

/-- numpy shape[1] of a 2D array given as a list of (uniform) rows. -/
def ncols (fs : List (List α)) : ℕ := ((fs.head?).map List.length).getD 0

/-- The time-step adjustment shared by extract_features and
preprocess_file: if the column count differs from TIME_STEPS, either
zero-pad on the right (np.pad with ((0,0),(0,pad_width))) or truncate on
the right (slicing [:, :TIME_STEPS]). -/
def adjustTimeSteps (z : α) (T : ℕ) (fs : List (List α)) : List (List α) :=
  if ncols fs = T then fs
  else if ncols fs < T then
    fs.map (fun row => row ++ List.replicate (T - ncols fs) z)
  else
    fs.map (fun row => row.take T)

/-- RealtimeSnoreDetector.extract_features after the librosa calls: the
mfcc and mel matrices are concatenated along axis 0, normalized with the
guarded Z-score, and adjusted to TIME_STEPS columns.  (The final
np.expand_dims only adds a batch axis and is omitted.) -/
def extract_features (T : ℕ) (mfcc mel : List (List ℚ)) : List (List ℚ) :=
  adjustTimeSteps 0 T (rtNormalize (mfcc ++ mel))

/-- preprocess.preprocess_file after the librosa calls: concatenation along
axis 0, unguarded normalize_features, then the same TIME_STEPS adjustment
(the pad constant 0.0 is the finite float zero). -/
def preprocess_file (T : ℕ) (mfcc mel : List (List ℚ)) : List (List FloatVal) :=
  adjustTimeSteps (FloatVal.fin 0) T (normalize_features (mfcc ++ mel))

/-- Classification polarity in process_audio_chunk:
`is_snore = prediction < (1 - self.threshold)`. -/
def is_snore (threshold score : ℚ) : Bool := decide (score < 1 - threshold)

/-- The counter update in process_audio_chunk: a positive window increments
snore_count, a negative window resets it to 0. -/
def updateCount (snore : Bool) (count : ℕ) : ℕ :=
  if snore then count + 1 else 0

/-- The debounce step of process_audio_chunk: after the counter update, if
`snore_count >= snore_threshold_count` the alert (vibration callback) fires
and the counter is reset to 0.  Returns (new counter, alert fired). -/
def debounceStep (tc : ℕ) (count : ℕ) (snore : Bool) : ℕ × Bool :=
  let c := updateCount snore count
  if tc ≤ c then (0, true) else (c, false)

/-- One call of process_audio_chunk given the model score for the (padded)
window: classify, update the counter, possibly fire the alert. -/
def process_audio_chunk (threshold : ℚ) (tc : ℕ) (count : ℕ) (score : ℚ) :
    ℕ × Bool :=
  debounceStep tc count (is_snore threshold score)

/-- Folding process_audio_chunk over a sequence of model scores, returning
the final counter and the per-window alert trace. -/
def processScores (threshold : ℚ) (tc : ℕ) : ℕ → List ℚ → ℕ × List Bool
  | count, [] => (count, [])
  | count, s :: rest =>
    let r := process_audio_chunk threshold tc count s
    let tailRes := processScores threshold tc r.1 rest
    (tailRes.1, r.2 :: tailRes.2)

/-- The most recent n elements of a list (Python list slicing [-n:] on the
materialized deque). -/
def takeLast (n : ℕ) (l : List ℚ) : List ℚ := l.drop (l.length - n)

/-- collections.deque with maxlen: extending keeps only the most recent
maxlen elements, evicting the oldest first. -/
def dequeExtend (maxlen : ℕ) (buf new : List ℚ) : List ℚ :=
  takeLast maxlen (buf ++ new)

/-- The padding step at the top of process_audio_chunk: a chunk shorter
than chunk_size is extended with zeros via
`np.pad(audio_chunk, (0, chunk_size - len(audio_chunk)))`, i.e. the zeros
go AFTER the existing samples. -/
def padChunk (chunkSize : ℕ) (chunk : List ℚ) : List ℚ :=
  if chunk.length < chunkSize then
    chunk ++ List.replicate (chunkSize - chunk.length) 0
  else chunk

/-- The window selection in the start_detection loop: a window is taken
only when the buffer holds at least chunk_size samples, and it is the
most recent chunk_size samples (`list(self.audio_buffer)[-self.chunk_size:]`);
otherwise no window is processed this cycle. -/
def loopWindow (chunkSize : ℕ) (buf : List ℚ) : Option (List ℚ) :=
  if chunkSize ≤ buf.length then some (takeLast chunkSize buf) else none

/-- Input to one iteration of the detection loop: either the model score
obtained for the current window, or an exception raised somewhere in the
read/extract/predict sequence. -/
inductive CycleInput where
  | ok (score : ℚ) : CycleInput
  | err : CycleInput
deriving DecidableEq, Repr

/-- The try-block body of one loop iteration, as far as the debounce state
is concerned: on success it runs process_audio_chunk, an exception
propagates out of the body. -/
def cycleBody (threshold : ℚ) (tc count : ℕ) : CycleInput → Except String (ℕ × Bool)
  | CycleInput.ok s => Except.ok (process_audio_chunk threshold tc count s)
  | CycleInput.err => Except.error "audio processing error"

/-- One full loop iteration with its `except` handler: an exception is
caught, printed, and the iteration is skipped with `continue` — the
counter field is NOT touched by the handler, so it keeps its value. -/
def loopCycle (threshold : ℚ) (tc count : ℕ) (inp : CycleInput) : ℕ × Bool :=
  match cycleBody threshold tc count inp with
  | Except.ok r => r
  | Except.error _ => (count, false)

/-- The mutable fields of RealtimeSnoreDetector touched by
start_detection, plus flags recording which external resources were
acquired. -/
structure DetectorState where
  is_running : Bool
  snore_count : ℕ
  audio_buffer : List ℚ
  pyaudio_created : Bool
  stream_open : Bool
  stream_started : Bool
deriving DecidableEq, Repr

/-- How a call to start_detection ends before (or instead of) the
processing loop. -/
inductive StartOutcome where
  | alreadyRunning : StartOutcome
  | openFailed : StartOutcome
  | enteredLoop : StartOutcome
deriving DecidableEq, Repr

/-- RealtimeSnoreDetector.start_detection up to entry into the processing
loop.  The flow in the source: an early return if is_running is already
true; otherwise set is_running, instantiate PyAudio, try to open the
stream — on exception print the error, set is_running back to False and
return; on success start the stream and enter the loop.  openRaises says
whether pyaudio.open raises. -/
def start_detection (openRaises : Bool) (st : DetectorState) :
    DetectorState × StartOutcome :=
  if st.is_running then (st, StartOutcome.alreadyRunning)
  else
    let st1 := { st with is_running := true, pyaudio_created := true }
    if openRaises then
      ({ st1 with is_running := false }, StartOutcome.openFailed)
    else
      ({ st1 with stream_open := true, stream_started := true },
        StartOutcome.enteredLoop)

/-- What a real-time entry point did about the model file before any audio
work: whether the missing-model error was reported, whether the model was
loaded, whether a detection session was started, and the process exit
status. -/
structure StartupResult where
  reportedMissing : Bool
  loadedModel : Bool
  startedSession : Bool
  exitCode : ℕ
deriving DecidableEq, Repr

/-- realtime_main.main: when the model file is missing it prints the error
and executes a plain `return`, so the interpreter ends with exit status 0;
otherwise it loads the model and starts the session. -/
def realtime_main_startup (modelExists : Bool) : StartupResult :=
  if modelExists then ⟨false, true, true, 0⟩ else ⟨true, false, false, 0⟩

/-- The `__main__` block of realtime_detection.py: when the model file is
missing it prints the error and calls `exit(1)`. -/
def realtime_detection_script_startup (modelExists : Bool) : StartupResult :=
  if modelExists then ⟨false, true, true, 0⟩ else ⟨true, false, false, 1⟩

/-- start_monitoring.main: when the model file is missing it prints the
error and executes a plain `return` (exit status 0). -/
def start_monitoring_startup (modelExists : Bool) : StartupResult :=
  if modelExists then ⟨false, true, true, 0⟩ else ⟨true, false, false, 0⟩

/-- Availability of a hardware driver stack: the Python library is absent
(importing raises ImportError), or present and fully working, or present
while device initialization raises a non-import exception (RuntimeError
from RPi.GPIO on a non-Pi host, serial.SerialException, ...). -/
inductive Drv where
  | absent : Drv
  | avail : Drv
  | deviceFail : Drv
deriving DecidableEq, Repr

/-- A constructed vibration controller; the Boolean records whether the
hardware variant fell back to simulated mode (GPIO or serial handle left
None). -/
inductive Controller where
  | raspberryPi (simulatedMode : Bool) : Controller
  | arduino (simulatedMode : Bool) : Controller
  | simulated : Controller
deriving DecidableEq, Repr

/-- The host environment probed by vibration controller construction. -/
structure VibEnv where
  gpio : Drv
  pyserial : Drv
  platformLinux : Bool
  cpuinfoRaspberry : Option Bool
deriving DecidableEq, Repr

/-- RaspberryPiVibrationController.__init__: the try block imports
RPi.GPIO and initializes the pin and PWM; ONLY ImportError is caught
(falling back to simulated mode with GPIO = None), so a non-import
exception from GPIO initialization propagates out of the constructor. -/
def mkRaspberryPi (gpio : Drv) : Except String Controller :=
  match gpio with
  | Drv.absent => Except.ok (Controller.raspberryPi true)
  | Drv.avail => Except.ok (Controller.raspberryPi false)
  | Drv.deviceFail => Except.error "RuntimeError"

/-- ArduinoVibrationController.__init__: the try block imports serial and
opens the port; both ImportError and any other Exception are caught,
leaving self.serial = None (simulated mode). -/
def mkArduino (pyserial : Drv) : Except String Controller :=
  match pyserial with
  | Drv.absent => Except.ok (Controller.arduino true)
  | Drv.avail => Except.ok (Controller.arduino false)
  | Drv.deviceFail => Except.ok (Controller.arduino true)

/-- The auto-selection step of create_vibration_controller: on Linux it
reads /proc/cpuinfo (any exception caught, falling back to simulated) and
picks raspberrypi only when the file mentions Raspberry Pi; on other
platforms it picks simulated. -/
def resolveAuto (env : VibEnv) : String :=
  if env.platformLinux then
    match env.cpuinfoRaspberry with
    | some true => "raspberrypi"
    | some false => "simulated"
    | none => "simulated"
  else "simulated"

/-- create_vibration_controller: resolve the selector (auto goes through
resolveAuto), then construct the chosen variant; any selector other than
raspberrypi or arduino yields the simulated controller. -/
def create_vibration_controller (env : VibEnv) (controller_type : String) :
    Except String Controller :=
  let ct := if controller_type = "auto" then resolveAuto env else controller_type
  if ct = "raspberrypi" then mkRaspberryPi env.gpio
  else if ct = "arduino" then mkArduino env.pyserial
  else Except.ok Controller.simulated

/-- Whether a construction attempt returned normally (did not raise). -/
def exceptOk : Except String Controller → Bool
  | Except.ok _ => true
  | Except.error _ => false

/-! ## Helper lemmas -/

theorem debounce_fire_iff (tc count : ℕ) (snore : Bool) (h1 : 1 ≤ tc) (h2 : count < tc) :
    (debounceStep tc count snore).2 = true ↔ snore = true ∧ count + 1 = tc := by
  cases snore <;> simp only [debounceStep, updateCount, if_true, if_false] <;>
    split_ifs <;> simp_all <;> omega

theorem debounce_reset_after_fire (tc count : ℕ) (snore : Bool)
    (h : (debounceStep tc count snore).2 = true) : (debounceStep tc count snore).1 = 0 := by
  simp only [debounceStep, updateCount] at *
  split_ifs at * <;> simp_all

theorem debounce_reset_neg (tc count : ℕ) (h : 1 ≤ tc) :
    debounceStep tc count false = (0, false) := by
  simp only [debounceStep, updateCount, Bool.false_eq_true, if_false]
  rw [if_neg]
  omega

theorem processScores_invariant (threshold : ℚ) (tc : ℕ) (h1 : 1 ≤ tc) :
    ∀ (scores : List ℚ) (count : ℕ), count < tc →
      (processScores threshold tc count scores).1 < tc := by
  intro scores
  induction scores with
  | nil => intro count h2; simpa [processScores] using h2
  | cons s rest ih =>
    intro count h2
    simp only [processScores]
    apply ih
    simp only [process_audio_chunk, debounceStep]
    split_ifs <;> omega

theorem adjust_eq {α : Type} (z : α) (T t : ℕ) (fs : List (List α))
    (h : ∀ row ∈ fs, row.length = t) :
    adjustTimeSteps z T fs =
      fs.map (fun r => (r ++ List.replicate (T - r.length) z).take T) := by
  cases fs with
  | nil => simp [adjustTimeSteps, ncols]
  | cons r0 rest =>
    have h0 : r0.length = t := h r0 (List.mem_cons_self _ _)
    have hcols : ncols (r0 :: rest) = t := by simp [ncols, h0]
    simp only [adjustTimeSteps, hcols]
    rcases Nat.lt_trichotomy t T with hlt | heq | hgt
    · rw [if_neg (by omega), if_pos hlt]
      apply List.map_congr_left
      intro a ha
      have hal := h a ha
      rw [hal, List.take_of_length_le]
      simp
      omega
    · subst heq
      rw [if_pos rfl]
      have hrows : ∀ a ∈ r0 :: rest, (a ++ List.replicate (t - a.length) z).take t = a := by
        intro a ha
        rw [h a ha, Nat.sub_self, List.replicate_zero, List.append_nil, ← h a ha,
          List.take_length]
      symm
      rw [List.map_congr_left hrows]
      simp
    · rw [if_neg (by omega), if_neg (by omega)]
      apply List.map_congr_left
      intro a ha
      have hz : T - a.length = 0 := by rw [h a ha]; omega
      rw [hz, List.replicate_zero, List.append_nil]

theorem length_take_pad {α : Type} (T : ℕ) (z : α) (r : List α) :
    ((r ++ List.replicate (T - r.length) z).take T).length = T := by
  simp [List.length_take]
  omega

theorem map_length_take_pad {α : Type} (T : ℕ) (z : α) (gs : List (List α)) :
    (gs.map (fun r => (r ++ List.replicate (T - r.length) z).take T)).map List.length =
      List.replicate gs.length T := by
  rw [List.eq_replicate_iff]
  constructor
  · simp
  · intro b hb
    simp only [List.map_map, List.mem_map, Function.comp] at hb
    obtain ⟨a, ha, rfl⟩ := hb
    exact length_take_pad T z a

theorem rtNormalize_uniform (fs : List (List ℚ)) (t : ℕ) (h : ∀ r ∈ fs, r.length = t) :
    ∀ r ∈ rtNormalize fs, r.length = t := by
  unfold rtNormalize
  split
  · intro r hr
    simp only [List.mem_map] at hr
    obtain ⟨a, ha, rfl⟩ := hr
    simp [h a ha]
  · exact h

theorem normalize_features_uniform (fs : List (List ℚ)) (t : ℕ)
    (h : ∀ r ∈ fs, r.length = t) :
    ∀ r ∈ normalize_features fs, r.length = t := by
  intro r hr
  simp only [normalize_features, List.mem_map] at hr
  obtain ⟨a, ha, rfl⟩ := hr
  simp [h a ha]

theorem rtNormalize_length (fs : List (List ℚ)) : (rtNormalize fs).length = fs.length := by
  unfold rtNormalize
  split <;> simp

theorem normalize_features_length (fs : List (List ℚ)) :
    (normalize_features fs).length = fs.length := by
  simp [normalize_features]

/-! ## Claim theorems -/

/-- C1: debounce correctness of process_audio_chunk.  With
threshold_count at least 1 and the counter below the threshold (the
reachable states), the alert fires exactly when the window is positive
and the incremented counter reaches threshold_count; the counter is 0
immediately after every firing and after every negative window; the
counter stays below threshold_count along any score sequence; and on the
two reference score sequences with threshold_ratio 1/2 and
threshold_count 3 the alert fires exactly once, after the third
(respectively sixth) element, leaving the counter at 0. -/
theorem c1_debounce_exactly_once :
    (∀ (tc count : ℕ) (snore : Bool), 1 ≤ tc → count < tc →
        ((debounceStep tc count snore).2 = true ↔ snore = true ∧ count + 1 = tc)) ∧
    (∀ (tc count : ℕ) (snore : Bool), (debounceStep tc count snore).2 = true →
        (debounceStep tc count snore).1 = 0) ∧
    (∀ (tc count : ℕ), 1 ≤ tc → debounceStep tc count false = (0, false)) ∧
    (∀ (threshold : ℚ) (tc : ℕ) (scores : List ℚ) (count : ℕ), 1 ≤ tc → count < tc →
        (processScores threshold tc count scores).1 < tc) ∧
    processScores (1/2) 3 0 [1/10, 1/10, 1/10] = (0, [false, false, true]) ∧
    processScores (1/2) 3 0 [1/10, 1/10, 9/10, 1/10, 1/10, 1/10] =
      (0, [false, false, false, false, false, true]) :=
  ⟨debounce_fire_iff, debounce_reset_after_fire, debounce_reset_neg,
   fun threshold tc scores count h1 h2 =>
     processScores_invariant threshold tc h1 scores count h2,
   by decide, by decide⟩

/-- C1 witness: the debounce properties instantiated at concrete states
with the hypotheses discharged by evaluation. -/
theorem c1_debounce_exactly_once_witness :
    ((debounceStep 3 2 true).2 = true ↔ true = true ∧ 2 + 1 = 3) ∧
    ((debounceStep 3 2 true).1 = 0) ∧
    (debounceStep 3 0 false = (0, false)) ∧
    ((processScores (1/2) 3 0 [1/10, 1/10, 1/10]).1 < 3) :=
  ⟨c1_debounce_exactly_once.1 3 2 true (by decide) (by decide),
   c1_debounce_exactly_once.2.1 3 2 true (by decide),
   c1_debounce_exactly_once.2.2.1 3 0 (by decide),
   c1_debounce_exactly_once.2.2.2.1 (1/2) 3 [1/10, 1/10, 1/10] 0 (by decide) (by decide)⟩

/-- C2: score polarity.  A window is classified positive (snore) exactly
when score < 1 - threshold_ratio; with threshold_ratio 1/2 a score of
1/20 is positive and a score of 19/20 is negative. -/
theorem c2_score_polarity :
    (∀ threshold score : ℚ, is_snore threshold score = true ↔ score < 1 - threshold) ∧
    is_snore (1/2) (1/20) = true ∧ is_snore (1/2) (19/20) = false :=
  ⟨fun threshold score => by simp [is_snore], by decide, by decide⟩

/-- C3 counterexample: the claim asserts the zero-variance guard for BOTH
normalization paths, but the offline normalize_features has no guard — on
the constant tensor [[1, 1]] (standard deviation 0) it computes 0/0 for
every entry, producing non-finite values instead of returning the input
unchanged. -/
theorem c3_offline_unguarded_counterexample :
    normalize_features [[1, 1]] = [[FloatVal.nonfinite, FloatVal.nonfinite]] ∧
    normalize_features [[1, 1]] ≠ [[FloatVal.fin 1, FloatVal.fin 1]] := by decide

/-- C3 amended: on a tensor whose standard deviation is exactly 0, the
real-time path (extract_features) returns the input unchanged thanks to
its std > 0 guard, while the offline normalize_features divides by zero
and turns every entry into a non-finite value. -/
theorem c3_zero_std_guard :
    ∀ fs : List (List ℚ), npStd fs = 0 →
      rtNormalize fs = fs ∧
      normalize_features fs = fs.map (fun row => row.map (fun _ => FloatVal.nonfinite)) := by
  intro fs h
  constructor
  · simp [rtNormalize, h]
  · simp [normalize_features, fdiv, h]

/-- C3 witness: the amended statement at the constant tensor [[2, 2]]. -/
theorem c3_zero_std_guard_witness :
    rtNormalize [[(2:ℚ), 2]] = [[(2:ℚ), 2]] ∧
    normalize_features [[(2:ℚ), 2]] =
      [[(2:ℚ), 2]].map (fun row => row.map (fun _ => FloatVal.nonfinite)) :=
  c3_zero_std_guard [[2, 2]] (by decide)

/-- C4: feature tensor shape.  For any mfcc and mel matrices with a
uniform column count, both the real-time extract_features and the offline
preprocess_file produce a tensor in which every row has exactly
TIME_STEPS entries, obtained from the normalized rows by zero-padding on
the right or truncating on the right (the unified form
(row ++ replicate (T - len) 0).take T expresses both). -/
theorem c4_time_steps_shape :
    ∀ (T t : ℕ) (mfcc mel : List (List ℚ)),
      (∀ row ∈ mfcc ++ mel, row.length = t) →
      extract_features T mfcc mel =
        (rtNormalize (mfcc ++ mel)).map
          (fun r => (r ++ List.replicate (T - r.length) (0:ℚ)).take T) ∧
      (extract_features T mfcc mel).map List.length =
        List.replicate (mfcc ++ mel).length T ∧
      preprocess_file T mfcc mel =
        (normalize_features (mfcc ++ mel)).map
          (fun r => (r ++ List.replicate (T - r.length) (FloatVal.fin 0)).take T) ∧
      (preprocess_file T mfcc mel).map List.length =
        List.replicate (mfcc ++ mel).length T := by
  intro T t mfcc mel h
  have e1 : extract_features T mfcc mel =
      (rtNormalize (mfcc ++ mel)).map
        (fun r => (r ++ List.replicate (T - r.length) (0:ℚ)).take T) :=
    adjust_eq 0 T t _ (rtNormalize_uniform _ t h)
  have e2 : preprocess_file T mfcc mel =
      (normalize_features (mfcc ++ mel)).map
        (fun r => (r ++ List.replicate (T - r.length) (FloatVal.fin 0)).take T) :=
    adjust_eq (FloatVal.fin 0) T t _ (normalize_features_uniform _ t h)
  refine ⟨e1, ?_, e2, ?_⟩
  · rw [e1, map_length_take_pad, rtNormalize_length]
  · rw [e2, map_length_take_pad, normalize_features_length]

/-- C4 witness: the shape property at TIME_STEPS = 3 for concrete 1x2
mfcc and mel matrices (a short input, exercising right-padding). -/
theorem c4_time_steps_shape_witness :
    extract_features 3 [[1, 2]] [[3, 4]] =
      (rtNormalize ([[1, 2]] ++ [[3, 4]])).map
        (fun r => (r ++ List.replicate (3 - r.length) (0:ℚ)).take 3) ∧
    (extract_features 3 [[1, 2]] [[3, 4]]).map List.length =
      List.replicate ([[(1:ℚ), 2]] ++ [[3, 4]]).length 3 ∧
    preprocess_file 3 [[1, 2]] [[3, 4]] =
      (normalize_features ([[1, 2]] ++ [[3, 4]])).map
        (fun r => (r ++ List.replicate (3 - r.length) (FloatVal.fin 0)).take 3) ∧
    (preprocess_file 3 [[1, 2]] [[3, 4]]).map List.length =
      List.replicate ([[(1:ℚ), 2]] ++ [[3, 4]]).length 3 :=
  c4_time_steps_shape 3 2 [[1, 2]] [[3, 4]] (by decide)

/-- C5 counterexample: the claim asserts that a too-short window is
zero-padded on the LEFT (zeros before the most recent samples), but
process_audio_chunk pads on the RIGHT: a chunk [1] padded to size 3
becomes [1, 0, 0], not [0, 0, 1]. -/
theorem c5_pad_side_counterexample :
    padChunk 3 [1] = [1, 0, 0] ∧ padChunk 3 [1] ≠ [0, 0, 1] := by decide

/-- C5 amended: a chunk shorter than the requested window size is
zero-padded on the RIGHT by process_audio_chunk, and the detection loop
never produces a short window at all — it takes a window only once the
buffer holds at least chunk_size samples. -/
theorem c5_pad_right :
    (∀ (n : ℕ) (chunk : List ℚ), chunk.length < n →
        padChunk n chunk = chunk ++ List.replicate (n - chunk.length) 0) ∧
    (∀ (n : ℕ) (buf : List ℚ), buf.length < n → loopWindow n buf = none) := by
  constructor
  · intro n chunk h
    simp [padChunk, h]
  · intro n buf h
    rw [loopWindow, if_neg]
    omega

/-- C5 witness: the amended padding behavior at a concrete short chunk
and a concrete under-filled buffer. -/
theorem c5_pad_right_witness :
    padChunk 3 [1] = [1] ++ List.replicate (3 - ([1] : List ℚ).length) 0 ∧
    loopWindow 3 [1, 2] = none :=
  ⟨c5_pad_right.1 3 [1] (by decide), c5_pad_right.2 3 [1, 2] (by decide)⟩

/-- C6 counterexample: the claim asserts that an exception during a
window resets the debounce counter to 0 as if the window were negative,
but the except handler leaves the counter untouched: with the counter at
2, an erroring cycle keeps it at 2 (a negative window would reset it
to 0). -/
theorem c6_error_reset_counterexample :
    loopCycle (1/2) 3 2 CycleInput.err = (2, false) ∧
    (loopCycle (1/2) 3 2 CycleInput.err).1 ≠ 0 ∧
    process_audio_chunk (1/2) 3 2 (9/10) = (0, false) := by decide

/-- C6 amended: an exception in extraction or inference for a single
window is contained — the try body yields an error that the handler
catches and the loop continues — but the consecutive-positive counter is
left UNCHANGED by the erroring cycle, not reset to 0. -/
theorem c6_error_containment :
    ∀ (threshold : ℚ) (tc count : ℕ),
      cycleBody threshold tc count CycleInput.err =
        Except.error "audio processing error" ∧
      loopCycle threshold tc count CycleInput.err = (count, false) :=
  fun _ _ _ => ⟨rfl, rfl⟩

/-- C7 counterexample: the claim asserts a non-zero exit status for every
real-time entry point when the model file is missing, but
realtime_main.main reports the error and returns normally, so the process
exits with status 0. -/
theorem c7_exit_status_counterexample :
    realtime_main_startup false = ⟨true, false, false, 0⟩ ∧
    (realtime_main_startup false).exitCode = 0 := by decide

/-- C7 amended: with the model file missing, every entry point reports
the error and returns without loading the model or starting a session;
only the standalone realtime_detection script exits with a non-zero
status (1), while realtime_main and start_monitoring return normally
(exit status 0). -/
theorem c7_missing_model_behavior :
    realtime_main_startup false = ⟨true, false, false, 0⟩ ∧
    start_monitoring_startup false = ⟨true, false, false, 0⟩ ∧
    realtime_detection_script_startup false = ⟨true, false, false, 1⟩ := by decide

/-- C8: device-open failure.  If the detector is stopped and opening the
audio stream raises, start_detection ends with is_running back at false,
the stream never opened or started, the buffer and counter untouched
(only the PyAudio instantiation flag changes), and the openFailed outcome
— it never reaches the processing loop. -/
theorem c8_open_failure :
    ∀ st : DetectorState, st.is_running = false →
      start_detection true st =
        ({ st with pyaudio_created := true }, StartOutcome.openFailed) := by
  intro st h
  cases st
  simp_all [start_detection]

/-- C8 witness: the open-failure behavior from the freshly constructed
detector state. -/
theorem c8_open_failure_witness :
    start_detection true ⟨false, 0, [], false, false, false⟩ =
      (⟨false, 0, [], true, false, false⟩, StartOutcome.openFailed) :=
  c8_open_failure ⟨false, 0, [], false, false, false⟩ rfl

/-- C9 counterexample: the claim asserts that actuator construction never
raises when hardware or driver is unavailable, but the RaspberryPi
controller catches only ImportError: when RPi.GPIO imports and its
device initialization raises (the deviceFail environment),
create_vibration_controller propagates the exception. -/
theorem c9_construction_raises_counterexample :
    create_vibration_controller ⟨Drv.deviceFail, Drv.avail, true, some true⟩ "raspberrypi" =
      Except.error "RuntimeError" := rfl

/-- C9 amended: construction never raises as long as the GPIO stack does
not fail at device level after a successful import: for every selector
(auto included) it then returns a controller; a missing driver library
falls back to simulated mode in both hardware variants, and the Arduino
variant additionally catches device-connection failures; only a
non-import GPIO initialization failure propagates. -/
theorem c9_fallback :
    (∀ (env : VibEnv) (ct : String), env.gpio ≠ Drv.deviceFail →
        exceptOk (create_vibration_controller env ct) = true) ∧
    (∀ d : Drv, exceptOk (mkArduino d) = true) ∧
    mkRaspberryPi Drv.absent = Except.ok (Controller.raspberryPi true) ∧
    mkArduino Drv.absent = Except.ok (Controller.arduino true) ∧
    mkArduino Drv.deviceFail = Except.ok (Controller.arduino true) := by
  have hg : ∀ g : Drv, g ≠ Drv.deviceFail → exceptOk (mkRaspberryPi g) = true := by
    intro g hgg
    cases g <;> first | rfl | exact absurd rfl hgg
  have ha : ∀ d : Drv, exceptOk (mkArduino d) = true := by
    intro d
    cases d <;> rfl
  refine ⟨?_, ha, rfl, rfl, rfl⟩
  intro env ct h
  simp only [create_vibration_controller]
  split_ifs <;> first | rfl | exact hg env.gpio h | exact ha env.pyserial

/-- C9 witness: construction succeeds with every driver library absent
and the auto selector on a non-Linux host. -/
theorem c9_fallback_witness :
    exceptOk (create_vibration_controller ⟨Drv.absent, Drv.absent, false, none⟩ "auto") = true :=
  c9_fallback.1 ⟨Drv.absent, Drv.absent, false, none⟩ "auto" (by decide)

/-- C10: start idempotence guard.  Calling start_detection while
is_running is already true returns immediately with the alreadyRunning
outcome and the detector state completely unchanged — no stream opened,
no field mutated. -/
theorem c10_start_idempotent :
    ∀ (openRaises : Bool) (st : DetectorState), st.is_running = true →
      start_detection openRaises st = (st, StartOutcome.alreadyRunning) := by
  intro openRaises st h
  simp [start_detection, h]

/-- C10 witness: the guard at a concrete running detector state. -/
theorem c10_start_idempotent_witness :
    start_detection false ⟨true, 2, [1], true, true, true⟩ =
      (⟨true, 2, [1], true, true, true⟩, StartOutcome.alreadyRunning) :=
  c10_start_idempotent false ⟨true, 2, [1], true, true, true⟩ rfl

end SnoreDetection
